import Mathlib

/-!
Verification of weather.js (solar radiation and daylength library).

The JavaScript source consists of two drivers built from shared pure
primitives:
  * Mode A (file weather.solar.js): start-date driver, returns eight
    index-aligned series (N, R_a, R_s, PAR, PPF, f_s, date, doy).
  * Mode B (file variant embedded in README.md): year-range driver,
    returns six Float64Array series or null on a length mismatch.

Embedding conventions:
  * JavaScript numbers are modelled by real numbers; decimal literals of
    the source become the exact rational constants they denote.
  * NaN is modelled by `none` in `Option ℝ`: an operation of the source
    that yields NaN on an input (acos outside [-1,1], sqrt of a negative,
    arithmetic on an undefined array read) is embedded as a function into
    `Option ℝ` that yields `none` there.
  * An out-of-bounds array read (undefined in JavaScript, NaN after
    arithmetic) is modelled by `List.getElem?`, which yields `none`.
  * Date objects are modelled by a calendar date structure in UTC; the
    environment is assumed to run with a UTC local time zone, so the
    local-midnight arithmetic of the source coincides with the calendar.
  * Division by zero does not arise in any of the verified claims; the
    embedded division is the Lean field division.
-/

namespace Weather

open Real

/-- Rotz (2014) relative-humidity estimate.
Source: weather.rh = min(1, 1 - exp(-0.2 * (T_mx - T_mn))). -/
noncomputable def rh (T_mn T_mx : ℝ) : ℝ :=
  min 1 (1 - Real.exp (-0.2 * (T_mx - T_mn)))

/-- Allen (1998) eq. 22, degree-to-radian conversion.
Source: rad = (PI / 180) * deg. -/
noncomputable def rad (deg : ℝ) : ℝ := (Real.pi / 180) * deg

/-- Allen (1998) eq. 23, inverse relative distance Earth-Sun.
Source: dr = 1 + (0.033 * cos(((2 * PI) / 356) * J)).  The divisor in the
source is 356, not the textbook 365. -/
noncomputable def dr (J : ℝ) : ℝ :=
  1 + 0.033 * Real.cos (2 * Real.pi / 356 * J)

/-- Allen (1998) eq. 24, solar declination.
Source: d = 0.409 * sin((((2 * PI) / 365) * J) - 1.39). -/
noncomputable def d (J : ℝ) : ℝ :=
  0.409 * Real.sin (2 * Real.pi / 365 * J - 1.39)

/-- The argument handed to acos by the sunset-hour-angle function.
Source: -tan(rad(j)) * tan(d). -/
noncomputable def wsArg (j dd : ℝ) : ℝ :=
  -Real.tan (rad j) * Real.tan dd

/-- Allen (1998) eq. 25, sunset hour angle.
Source: ws = acos(-tan(rad(j)) * tan(d)).  JavaScript acos yields NaN
outside [-1, 1]; that case is embedded as `none`. -/
noncomputable def ws (j dd : ℝ) : Option ℝ :=
  if wsArg j dd < -1 ∨ 1 < wsArg j dd then none
  else some (Real.arccos (wsArg j dd))

/-- Allen (1998) eq. 21, extraterrestrial radiation.
Source: R_a = ((24 * 60) / PI) * Gsc * dr * ((ws * sin(rad(j)) * sin(d)) +
(cos(rad(j)) * cos(d) * sin(ws))), with Gsc = 0.0820; any unit other than
the strings mj and mm is replaced by mj, and the mm variant multiplies by
0.408. -/
noncomputable def R_a (dr_ ws_ j dd : ℝ) (unit : String) : ℝ :=
  let u := if unit ≠ "mj" ∧ unit ≠ "mm" then "mj" else unit
  let Gsc : ℝ := 0.0820
  let v := 24 * 60 / Real.pi * Gsc * dr_ *
    (ws_ * Real.sin (rad j) * Real.sin dd +
      Real.cos (rad j) * Real.cos dd * Real.sin ws_)
  if u = "mj" then v else v * 0.408

/-- Allen (1998) eq. 34, maximum daylight hours.
Source: N = (24 / PI) * ws. -/
noncomputable def N (ws_ : ℝ) : ℝ := 24 / Real.pi * ws_

/-- Samani (2000) eqs. 1 and 3, shortwave radiation.
Source: TD = T_mx - T_mn; KT = 0.00185 * TD^2 - 0.0433 * TD + 0.4023;
R_s = KT * R_a * sqrt(TD).  JavaScript sqrt of a negative yields NaN,
embedded as `none`. -/
noncomputable def R_s (ra tmn tmx : ℝ) : Option ℝ :=
  let TD := tmx - tmn
  let KT := 0.00185 * TD ^ 2 - 0.0433 * TD + 0.4023
  if TD < 0 then none else some (KT * ra * Real.sqrt TD)

/-- Photosynthetically active radiation.  Source: PAR = 0.5 * R_s. -/
noncomputable def PAR (rs : ℝ) : ℝ := 0.5 * rs

/-- Johnson (2013) eq. 2.8, photosynthetic photon flux.
Source: PPF = PAR / 0.218. -/
noncomputable def PPF (par : ℝ) : ℝ := par / 0.218

/-- Second branch formula of the diffuse-fraction chain,
for 0.07 < T_atm <= 0.35.  Source: f_d = 1 - 2.3 * pow(T_atm - 0.07, 2). -/
noncomputable def f_dPiece2 (T_atm : ℝ) : ℝ := 1 - 2.3 * (T_atm - 0.07) ^ 2

/-- Third branch formula of the diffuse-fraction chain,
for 0.35 < T_atm <= 0.75.  Source: f_d = 1.33 - 1.46 * T_atm. -/
noncomputable def f_dPiece3 (T_atm : ℝ) : ℝ := 1.33 - 1.46 * T_atm

/-- Fourth branch value of the diffuse-fraction chain, for 0.75 < T_atm.
Source: f_d = 0.23. -/
noncomputable def f_dPiece4 : ℝ := 0.23

/-- Supit (2003) eqs. 4.28a - 4.28d, diffuse fraction of solar radiation.
Source: f_d is initialised to 0 and then set by the four-branch if chain on
T_atm; for a real (non-NaN) T_atm the chain is exhaustive, and the final
`else 0` records the initialisation value that survives when every
comparison is false. -/
noncomputable def f_d (T_atm : ℝ) : ℝ :=
  if T_atm ≤ 0.07 then 1
  else if 0.07 < T_atm ∧ T_atm ≤ 0.35 then f_dPiece2 T_atm
  else if 0.35 < T_atm ∧ T_atm ≤ 0.75 then f_dPiece3 T_atm
  else if 0.75 < T_atm then f_dPiece4
  else 0

/-- Fraction of direct solar radiation.
Source: T_atm = R_s / R_a; return 1 - f_d. -/
noncomputable def f_s (rs ra : ℝ) : ℝ := 1 - f_d (rs / ra)

/-- NaN-aware wrapper for `R_s` used by the drivers: the source computes
TD = T_mx[i] - T_mn[i] and propagates NaN when an operand is NaN or an
out-of-bounds (undefined) array read. -/
noncomputable def R_sO (ra tmn tmx : Option ℝ) : Option ℝ :=
  match ra, tmn, tmx with
  | some ra_, some a, some b => R_s ra_ a b
  | _, _, _ => none

/-- NaN-aware wrapper for `f_s` used by the drivers.  When R_s or R_a is
NaN, T_atm = R_s / R_a is NaN, every comparison of the if chain in the
source is false, f_d keeps its initialisation value 0, and the function
returns 1 - 0 = 1. -/
noncomputable def f_sO (rs ra : Option ℝ) : Option ℝ :=
  match rs, ra with
  | some x, some y => some (f_s x y)
  | _, _ => some 1

/-- Gregorian leap-year test, as implemented by the JavaScript Date
calendar. -/
def isLeapYear (y : ℕ) : Bool :=
  (y % 4 == 0 && y % 100 != 0) || y % 400 == 0

/-- Number of days of month m (1-based) in year y, per the proleptic
Gregorian calendar used by JavaScript Date. -/
def daysInMonth (y m : ℕ) : ℕ :=
  if m = 2 then (if isLeapYear y then 29 else 28)
  else if m = 4 ∨ m = 6 ∨ m = 9 ∨ m = 11 then 30
  else 31

/-- Number of days of year y: the source computes it as the millisecond
distance from January 1 of y to January 1 of y + 1, divided by
MS_PER_DAY. -/
def daysInYear (y : ℕ) : ℕ := if isLeapYear y then 366 else 365

/-- A calendar date (UTC), the embedding of a JavaScript Date holding a
midnight instant.  Months and days are 1-based as in ISO notation. -/
structure Date where
  year : ℕ
  month : ℕ
  day : ℕ
deriving DecidableEq

/-- Days of year dt.year that precede month dt.month. -/
def daysBeforeMonth (y m : ℕ) : ℕ :=
  ((List.range (m - 1)).map (fun k => daysInMonth y (k + 1))).sum

/-- Day of year (1-based).  The source computes
ceil((date - new Date(year, 0, 1)) / MS_PER_DAY) + 1, which for a midnight
date in a UTC environment is the ordinal of the day within its year. -/
def doyOf (dt : Date) : ℕ := daysBeforeMonth dt.year dt.month + dt.day

/-- The next calendar day; the source advances the mutable Date with
date.setDate(date.getDate() + 1), rolling over months and years. -/
def nextDay (dt : Date) : Date :=
  if dt.day < daysInMonth dt.year dt.month then ⟨dt.year, dt.month, dt.day + 1⟩
  else if dt.month < 12 then ⟨dt.year, dt.month + 1, 1⟩
  else ⟨dt.year + 1, 1, 1⟩

/-- dt advanced by n calendar days. -/
def addDays (dt : Date) : ℕ → Date
  | 0 => dt
  | n + 1 => addDays (nextDay dt) n

/-- Zero-padding to two digits, as produced by toISOString. -/
def pad2 (n : ℕ) : String :=
  if n < 10 then "0" ++ toString n else toString n

/-- Zero-padding to four digits, as produced by toISOString. -/
def pad4 (n : ℕ) : String :=
  if n < 10 then "000" ++ toString n
  else if n < 100 then "00" ++ toString n
  else if n < 1000 then "0" ++ toString n
  else toString n

/-- The date part of toISOString: the source stores
date.toISOString().split(the letter T)[0], i.e. YYYY-MM-DD. -/
def toISO (dt : Date) : String :=
  pad4 dt.year ++ "-" ++ pad2 dt.month ++ "-" ++ pad2 dt.day

/-- The output bundle of the Mode A driver: eight index-aligned series. -/
structure SolarOut where
  N : List (Option ℝ)
  R_a : List (Option ℝ)
  R_s : List (Option ℝ)
  PAR : List (Option ℝ)
  PPF : List (Option ℝ)
  f_s : List (Option ℝ)
  date : List String
  doy : List ℕ

/-- One loop iteration of the Mode A driver, recursing over the remaining
day count.  i is the running array index, dt the rolling date.  The loop
bound of the source is T_mn.length; array reads use getElem?, so a read
past the end of T_mx is `none` (undefined/NaN in the source). -/
noncomputable def solarFrom (j : ℝ) (T_mn T_mx : List ℝ) :
    ℕ → ℕ → Date → SolarOut
  | _, 0, _ => ⟨[], [], [], [], [], [], [], []⟩
  | i, n + 1, dt =>
    let _doy := doyOf dt
    let dr_ := dr _doy
    let d_ := d _doy
    let ws_ := ws j d_
    let R_a_ := ws_.map (fun w => R_a dr_ w j d_ "mj")
    let N_ := ws_.map (fun w => N w)
    let R_s_ := R_sO R_a_ T_mn[i]? T_mx[i]?
    let PAR_ := R_s_.map (fun x => PAR x)
    let PPF_ := (PAR_.map (fun x => x * 1e6)).map (fun x => PPF x)
    let f_s_ := f_sO R_s_ R_a_
    let rest := solarFrom j T_mn T_mx (i + 1) n (nextDay dt)
    ⟨N_ :: rest.N, R_a_ :: rest.R_a, R_s_ :: rest.R_s, PAR_ :: rest.PAR,
      PPF_ :: rest.PPF, f_s_ :: rest.f_s, toISO dt :: rest.date,
      _doy :: rest.doy⟩

/-- Mode A driver (weather.solar of weather.solar.js): latitude,
temperature arrays and a start date; iterates i from 0 to
T_mn.length - 1. -/
noncomputable def solar (j : ℝ) (T_mn T_mx : List ℝ) (startDate : Date) :
    SolarOut :=
  solarFrom j T_mn T_mx 0 T_mn.length startDate

/-- Days from January 1 of year 0 to January 1 of year y, summing
`daysInYear` over the years before y. -/
def daysBeforeYear : ℕ → ℕ
  | 0 => 0
  | y + 1 => daysBeforeYear y + daysInYear y

/-- Total day count of the year range of the Mode B driver.  The source
computes ceil((new Date(last_year + 1, 0, 1) - new Date(first_year, 0, 1))
/ MS_PER_DAY), an exact (possibly negative) whole number of days; for
years at or above 100 this equals the difference of day numbers below.
(JavaScript remaps constructor years 0-99 to 1900-1999; the claims only
involve years at or above 100.) -/
def no_days (first_year last_year : ℕ) : ℤ :=
  (daysBeforeYear (last_year + 1) : ℤ) - (daysBeforeYear first_year : ℤ)

/-- The output bundle of the Mode B driver: six index-aligned series. -/
structure SolarOutB where
  N : List (Option ℝ)
  R_a : List (Option ℝ)
  R_s : List (Option ℝ)
  PAR : List (Option ℝ)
  PPF : List (Option ℝ)
  f_s : List (Option ℝ)

/-- Concatenation of two Mode B output bundles, series by series. -/
def SolarOutB.append (a b : SolarOutB) : SolarOutB :=
  ⟨a.N ++ b.N, a.R_a ++ b.R_a, a.R_s ++ b.R_s, a.PAR ++ b.PAR,
    a.PPF ++ b.PPF, a.f_s ++ b.f_s⟩

/-- Inner loop of the Mode B driver over the days of one year: doy runs
from day + 1, temperatures are read at the global index cnt. -/
noncomputable def solarYearDays (j : ℝ) (T_mn T_mx : List ℝ) :
    ℕ → ℕ → ℕ → SolarOutB
  | 0, _, _ => ⟨[], [], [], [], [], []⟩
  | n + 1, day, cnt =>
    let _doy := day + 1
    let dr_ := dr _doy
    let d_ := d _doy
    let ws_ := ws j d_
    let R_a_ := ws_.map (fun w => R_a dr_ w j d_ "mj")
    let N_ := ws_.map (fun w => N w)
    let R_s_ := R_sO R_a_ T_mn[cnt]? T_mx[cnt]?
    let PAR_ := R_s_.map (fun x => PAR x)
    let PPF_ := (PAR_.map (fun x => x * 1e6)).map (fun x => PPF x)
    let f_s_ := f_sO R_s_ R_a_
    let rest := solarYearDays j T_mn T_mx n (day + 1) (cnt + 1)
    ⟨N_ :: rest.N, R_a_ :: rest.R_a, R_s_ :: rest.R_s, PAR_ :: rest.PAR,
      PPF_ :: rest.PPF, f_s_ :: rest.f_s⟩

/-- Outer loop of the Mode B driver over the years of the range: k years
remain, starting at year, with global day counter cnt. -/
noncomputable def solarYearsFrom (j : ℝ) (T_mn T_mx : List ℝ) :
    ℕ → ℕ → ℕ → SolarOutB
  | _, 0, _ => ⟨[], [], [], [], [], []⟩
  | year, k + 1, cnt =>
    (solarYearDays j T_mn T_mx (daysInYear year) 0 cnt).append
      (solarYearsFrom j T_mn T_mx (year + 1) k (cnt + daysInYear year))

/-- Mode B driver (weather.solar of the README variant): checks
T_mn.length and T_mx.length against no_days and returns null (embedded as
`none`) on a mismatch, after logging a diagnostic. -/
noncomputable def solarB (j : ℝ) (T_mn T_mx : List ℝ)
    (first_year last_year : ℕ) : Option SolarOutB :=
  if (T_mn.length : ℤ) ≠ no_days first_year last_year ∨
      (T_mx.length : ℤ) ≠ no_days first_year last_year then none
  else some (solarYearsFrom j T_mn T_mx first_year
    (last_year + 1 - first_year) 0)

/-- Per-day daylight-hours value of the Mode A loop body. -/
noncomputable def NAt (j : ℝ) (dt : Date) : Option ℝ :=
  (ws j (d (doyOf dt))).map (fun w => N w)

/-- Per-day extraterrestrial radiation of the Mode A loop body. -/
noncomputable def RaAt (j : ℝ) (dt : Date) : Option ℝ :=
  (ws j (d (doyOf dt))).map
    (fun w => R_a (dr (doyOf dt)) w j (d (doyOf dt)) "mj")

/-- Per-day shortwave radiation of the Mode A loop body. -/
noncomputable def RsAt (j : ℝ) (dt : Date) (tmn tmx : Option ℝ) :
    Option ℝ :=
  R_sO (RaAt j dt) tmn tmx

/-- Per-day PAR of the Mode A loop body. -/
noncomputable def PARAt (j : ℝ) (dt : Date) (tmn tmx : Option ℝ) :
    Option ℝ :=
  (RsAt j dt tmn tmx).map (fun x => PAR x)

/-- Per-day PPF of the Mode A loop body (PAR converted MJ to J). -/
noncomputable def PPFAt (j : ℝ) (dt : Date) (tmn tmx : Option ℝ) :
    Option ℝ :=
  ((PARAt j dt tmn tmx).map (fun x => x * 1e6)).map (fun x => PPF x)

/-- Per-day direct-radiation fraction of the Mode A loop body. -/
noncomputable def fsAt (j : ℝ) (dt : Date) (tmn tmx : Option ℝ) :
    Option ℝ :=
  f_sO (RsAt j dt tmn tmx) (RaAt j dt)

theorem R_sO_tmx_none (ra tmn : Option ℝ) : R_sO ra tmn none = none := by
  cases ra <;> cases tmn <;> rfl

theorem f_sO_none_left (ra : Option ℝ) : f_sO none ra = some 1 := by
  cases ra <;> rfl

theorem daysBeforeYear_succ (y : ℕ) :
    daysBeforeYear (y + 1) = daysBeforeYear y + daysInYear y := rfl

theorem no_days_single (y : ℕ) : no_days y y = (daysInYear y : ℤ) := by
  rw [no_days, daysBeforeYear_succ]
  push_cast
  ring

theorem no_days_2000 : no_days 2000 2000 = 366 := by
  rw [no_days_single]
  norm_num [daysInYear, isLeapYear]

/-- C5: the inverse relative Earth-Sun distance is exactly
1 + 0.033 * cos((2 * pi / 356) * J), with divisor 356, for every day of
year J. -/
theorem dr_formula (J : ℝ) :
    dr J = 1 + 0.033 * Real.cos (2 * Real.pi / 356 * J) := rfl

/-- C6: the relative-humidity estimate equals
min(1, 1 - exp(-0.2 * (T_mx - T_mn))); it is 0 at a zero temperature
range, monotonically non-decreasing in the range, at most 1, and strictly
negative whenever T_mx < T_mn. -/
theorem rh_properties (T_mn T_mx : ℝ) :
    rh T_mn T_mx = min 1 (1 - Real.exp (-0.2 * (T_mx - T_mn))) ∧
    rh T_mn T_mn = 0 ∧
    (∀ a b : ℝ, T_mx - T_mn ≤ b - a → rh T_mn T_mx ≤ rh a b) ∧
    rh T_mn T_mx ≤ 1 ∧
    (T_mx < T_mn → rh T_mn T_mx < 0) := by
  refine ⟨rfl, ?_, ?_, ?_, ?_⟩
  · rw [rh]
    simp
  · intro a b hab
    rw [rh, rh]
    refine min_le_min le_rfl ?_
    have : Real.exp (-0.2 * (b - a)) ≤ Real.exp (-0.2 * (T_mx - T_mn)) :=
      Real.exp_le_exp.mpr (by linarith)
    linarith
  · exact min_le_left _ _
  · intro h
    rw [rh]
    have h1 : (1 : ℝ) < Real.exp (-0.2 * (T_mx - T_mn)) := by
      rw [← Real.exp_zero]
      exact Real.exp_lt_exp.mpr (by nlinarith)
    have h2 : 1 - Real.exp (-0.2 * (T_mx - T_mn)) < 0 := by linarith
    calc min 1 (1 - Real.exp (-0.2 * (T_mx - T_mn)))
        ≤ 1 - Real.exp (-0.2 * (T_mx - T_mn)) := min_le_right _ _
      _ < 0 := h2

theorem rh_properties_witness :
    rh 0 0 = 0 ∧ rh 1 0 < 0 :=
  ⟨(rh_properties 0 0).2.1, (rh_properties 1 0).2.2.2.2 (by norm_num)⟩

/-- C8: for all real inputs the direct-radiation fraction lies in
[0, 0.77]; it is exactly 0 whenever the transmissivity is at most 0.07
and exactly 0.77 whenever it exceeds 0.75, so values in (0.77, 1] are
never attained. -/
theorem f_s_range (rs ra : ℝ) :
    0 ≤ f_s rs ra ∧ f_s rs ra ≤ 0.77 ∧
    (rs / ra ≤ 0.07 → f_s rs ra = 0) ∧
    (0.75 < rs / ra → f_s rs ra = 0.77) := by
  have main : ∀ t : ℝ, 0 ≤ 1 - f_d t ∧ 1 - f_d t ≤ 0.77 ∧
      (t ≤ 0.07 → 1 - f_d t = 0) ∧ (0.75 < t → 1 - f_d t = 0.77) := by
    intro t
    rw [f_d]
    split
    · rename_i h1
      exact ⟨by norm_num, by norm_num, fun _ => by norm_num,
        fun hx => absurd hx (by linarith)⟩
    · split
      · rename_i h1 h2
        rw [f_dPiece2]
        refine ⟨by nlinarith [sq_nonneg (t - 0.07)], by nlinarith, ?_, ?_⟩
        · intro h; linarith [h2.1]
        · intro h; linarith [h2.2]
      · split
        · rename_i h1 h2 h3
          rw [f_dPiece3]
          refine ⟨by linarith [h3.1], by linarith [h3.2], ?_, ?_⟩
          · intro h; linarith [h3.1]
          · intro h; linarith [h3.2]
        · split
          · rename_i h1 h2 h3 h4
            rw [f_dPiece4]
            exact ⟨by norm_num, by norm_num,
              fun hx => absurd hx (by linarith), fun _ => by norm_num⟩
          · rename_i h1 h2 h3 h4
            exfalso
            push_neg at h1 h2 h3 h4
            have := h2 h1
            have := h3 (by linarith)
            exact absurd h4 (by linarith)
  rw [f_s]
  exact main (rs / ra)

theorem f_s_range_witness :
    f_s 0 1 = 0 ∧ f_s 1 1 = 0.77 :=
  ⟨(f_s_range 0 1).2.2.1 (by norm_num),
    (f_s_range 1 1).2.2.2 (by norm_num)⟩

/-- C4 counterexample: at the bracket boundary T_atm = 0.35 the two
adjacent formula pieces of the diffuse fraction differ by 0.00068, far
more than the 1e-9 tolerance the claim allows. -/
theorem f_d_boundary_mismatch :
    ¬ |f_dPiece2 0.35 - f_dPiece3 0.35| ≤ 1e-9 := by
  rw [f_dPiece2, f_dPiece3]
  rw [show |(1 - 2.3 * ((0.35 : ℝ) - 0.07) ^ 2) - (1.33 - 1.46 * 0.35)| =
      0.00068 by rw [abs_of_nonneg] <;> norm_num]
  norm_num

/-- C4 amended: the diffuse-fraction chain is continuous at T_atm = 0.07,
where both pieces give 1, but discontinuous at 0.35 and 0.75: the
adjacent pieces differ there by exactly 0.00068 and 0.005.  At each
boundary value the function itself takes the piece whose bracket is
upper-inclusive. -/
theorem f_d_boundaries :
    f_dPiece2 0.07 = 1 ∧ f_d 0.07 = 1 ∧
    f_dPiece2 0.35 - f_dPiece3 0.35 = 0.00068 ∧
    f_d 0.35 = f_dPiece2 0.35 ∧
    f_dPiece3 0.75 - f_dPiece4 = 0.005 ∧
    f_d 0.75 = f_dPiece3 0.75 := by
  refine ⟨?_, ?_, ?_, ?_, ?_, ?_⟩
  · rw [f_dPiece2]; norm_num
  · rw [f_d]; norm_num
  · rw [f_dPiece2, f_dPiece3]; norm_num
  · rw [f_d]; norm_num
  · rw [f_dPiece3, f_dPiece4]; norm_num
  · rw [f_d]; norm_num

set_option maxRecDepth 8000 in
/-- The Mode A loop, fully characterised: every output series is the map
of the corresponding per-day function over the day offsets 0..n-1. -/
theorem solarFrom_eq (j : ℝ) (t1 t2 : List ℝ) (n : ℕ) :
    ∀ (i : ℕ) (dt : Date),
    solarFrom j t1 t2 i n dt =
      ⟨(List.range n).map (fun k => NAt j (addDays dt k)),
        (List.range n).map (fun k => RaAt j (addDays dt k)),
        (List.range n).map
          (fun k => RsAt j (addDays dt k) t1[i + k]? t2[i + k]?),
        (List.range n).map
          (fun k => PARAt j (addDays dt k) t1[i + k]? t2[i + k]?),
        (List.range n).map
          (fun k => PPFAt j (addDays dt k) t1[i + k]? t2[i + k]?),
        (List.range n).map
          (fun k => fsAt j (addDays dt k) t1[i + k]? t2[i + k]?),
        (List.range n).map (fun k => toISO (addDays dt k)),
        (List.range n).map (fun k => doyOf (addDays dt k))⟩ := by
  induction n with
  | zero => intro i dt; rfl
  | succ n ih =>
    intro i dt
    rw [List.range_succ_eq_map]
    simp only [List.map_cons, List.map_map, Function.comp]
    rw [solarFrom, ih (i + 1) (nextDay dt)]
    simp only [NAt, RaAt, RsAt, PARAt, PPFAt, fsAt]
    simp only [addDays]
    simp only [Nat.add_succ, Nat.succ_add, Nat.add_zero]
    rfl

/-- C1: for every latitude, equal-length temperature arrays, and start
date, Mode A returns eight index-aligned series of the input length; for
start date 2021-03-01 and input length 5 the date series is the five ISO
days from 2021-03-01 and the doy series is [60, 61, 62, 63, 64]. -/
theorem modeA_lengths_and_dates (j : ℝ) (T_mn T_mx : List ℝ)
    (startDate : Date) (_h : T_mn.length = T_mx.length) :
    ((solar j T_mn T_mx startDate).N.length = T_mn.length ∧
      (solar j T_mn T_mx startDate).R_a.length = T_mn.length ∧
      (solar j T_mn T_mx startDate).R_s.length = T_mn.length ∧
      (solar j T_mn T_mx startDate).PAR.length = T_mn.length ∧
      (solar j T_mn T_mx startDate).PPF.length = T_mn.length ∧
      (solar j T_mn T_mx startDate).f_s.length = T_mn.length ∧
      (solar j T_mn T_mx startDate).date.length = T_mn.length ∧
      (solar j T_mn T_mx startDate).doy.length = T_mn.length) ∧
    (T_mn.length = 5 →
      (solar j T_mn T_mx ⟨2021, 3, 1⟩).date =
        ["2021-03-01", "2021-03-02", "2021-03-03", "2021-03-04",
          "2021-03-05"] ∧
      (solar j T_mn T_mx ⟨2021, 3, 1⟩).doy = [60, 61, 62, 63, 64]) := by
  constructor
  · rw [solar, solarFrom_eq]
    simp only [List.length_map, List.length_range, and_self]
  · intro h5
    rw [solar, h5, solarFrom_eq]
    exact ⟨rfl, rfl⟩

theorem modeA_lengths_and_dates_witness :
    (solar 45 [1, 2, 3, 4, 5] [2, 3, 4, 5, 6] ⟨2021, 3, 1⟩).date =
      ["2021-03-01", "2021-03-02", "2021-03-03", "2021-03-04",
        "2021-03-05"] ∧
    (solar 45 [1, 2, 3, 4, 5] [2, 3, 4, 5, 6] ⟨2021, 3, 1⟩).doy =
      [60, 61, 62, 63, 64] :=
  (modeA_lengths_and_dates 45 [1, 2, 3, 4, 5] [2, 3, 4, 5, 6]
    ⟨2021, 3, 1⟩ rfl).2 rfl

/-- C7: both drivers are pure functions of their arguments: two
invocations with identical latitude, temperature arrays and date or year
arguments return identical output bundles. -/
theorem drivers_deterministic (j j' : ℝ) (t1 t1' t2 t2' : List ℝ)
    (s s' : Date) (fy fy' ly ly' : ℕ)
    (h1 : j = j') (h2 : t1 = t1') (h3 : t2 = t2') (h4 : s = s')
    (h5 : fy = fy') (h6 : ly = ly') :
    solar j t1 t2 s = solar j' t1' t2' s' ∧
    solarB j t1 t2 fy ly = solarB j' t1' t2' fy' ly' := by
  subst h1; subst h2; subst h3; subst h4; subst h5; subst h6
  exact ⟨rfl, rfl⟩

theorem drivers_deterministic_witness :
    solar 45 [0] [1] ⟨2020, 1, 1⟩ = solar 45 [0] [1] ⟨2020, 1, 1⟩ ∧
    solarB 45 [0] [1] 2000 2000 = solarB 45 [0] [1] 2000 2000 :=
  drivers_deterministic 45 45 [0] [0] [1] [1] ⟨2020, 1, 1⟩ ⟨2020, 1, 1⟩
    2000 2000 2000 2000 rfl rfl rfl rfl rfl rfl

/-- C9: in Mode A the N, R_a, date and doy series do not depend on the
temperature values: with the same latitude, start date and input length,
arbitrarily different temperature entries give identical series. -/
theorem modeA_temp_independence (j : ℝ) (t1 t2 t1' t2' : List ℝ)
    (s : Date) (h : t1.length = t1'.length) :
    (solar j t1 t2 s).N = (solar j t1' t2' s).N ∧
    (solar j t1 t2 s).R_a = (solar j t1' t2' s).R_a ∧
    (solar j t1 t2 s).date = (solar j t1' t2' s).date ∧
    (solar j t1 t2 s).doy = (solar j t1' t2' s).doy := by
  rw [solar, solar, solarFrom_eq, solarFrom_eq, h]
  exact ⟨rfl, rfl, rfl, rfl⟩

theorem modeA_temp_independence_witness :
    (solar 45 [0] [0] ⟨2021, 1, 1⟩).N =
      (solar 45 [9] [30] ⟨2021, 1, 1⟩).N ∧
    (solar 45 [0] [0] ⟨2021, 1, 1⟩).R_a =
      (solar 45 [9] [30] ⟨2021, 1, 1⟩).R_a ∧
    (solar 45 [0] [0] ⟨2021, 1, 1⟩).date =
      (solar 45 [9] [30] ⟨2021, 1, 1⟩).date ∧
    (solar 45 [0] [0] ⟨2021, 1, 1⟩).doy =
      (solar 45 [9] [30] ⟨2021, 1, 1⟩).doy :=
  modeA_temp_independence 45 [0] [0] [9] [30] ⟨2021, 1, 1⟩ rfl

/-- C10 amended: Mode A performs no length or latitude validation and
never fails: every output series has length exactly T_mn.length even for
unequal temperature arrays; at an index at or past T_mx.length the R_s,
PAR and PPF entries are NaN from the out-of-bounds read, while the f_s
entry is 1 (not NaN), because the NaN transmissivity fails every branch
comparison and the diffuse fraction keeps its initialisation value 0. -/
theorem modeA_no_validation (j : ℝ) (t1 t2 : List ℝ) (s : Date) (i : ℕ)
    (h1 : t2.length ≤ i) (h2 : i < t1.length) :
    ((solar j t1 t2 s).N.length = t1.length ∧
      (solar j t1 t2 s).R_a.length = t1.length ∧
      (solar j t1 t2 s).R_s.length = t1.length ∧
      (solar j t1 t2 s).PAR.length = t1.length ∧
      (solar j t1 t2 s).PPF.length = t1.length ∧
      (solar j t1 t2 s).f_s.length = t1.length ∧
      (solar j t1 t2 s).date.length = t1.length ∧
      (solar j t1 t2 s).doy.length = t1.length) ∧
    (solar j t1 t2 s).R_s[i]? = some none ∧
    (solar j t1 t2 s).PAR[i]? = some none ∧
    (solar j t1 t2 s).PPF[i]? = some none ∧
    (solar j t1 t2 s).f_s[i]? = some (some 1) := by
  rw [solar, solarFrom_eq]
  have ht2 : t2[i]? = none := List.getElem?_eq_none h1
  refine ⟨?_, ?_, ?_, ?_, ?_⟩
  · simp only [List.length_map, List.length_range, and_self]
  · rw [List.getElem?_map, List.getElem?_range h2, Option.map_some',
      Nat.zero_add, ht2, RsAt, R_sO_tmx_none]
  · rw [List.getElem?_map, List.getElem?_range h2, Option.map_some',
      Nat.zero_add, ht2, PARAt, RsAt, R_sO_tmx_none, Option.map_none']
  · rw [List.getElem?_map, List.getElem?_range h2, Option.map_some',
      Nat.zero_add, ht2, PPFAt, PARAt, RsAt, R_sO_tmx_none,
      Option.map_none', Option.map_none', Option.map_none']
  · rw [List.getElem?_map, List.getElem?_range h2, Option.map_some',
      Nat.zero_add, ht2, fsAt, RsAt, R_sO_tmx_none, f_sO_none_left]

theorem modeA_no_validation_witness :
    (solar 45 [0, 0] [1] ⟨2021, 1, 1⟩).R_s[1]? = some none ∧
    (solar 45 [0, 0] [1] ⟨2021, 1, 1⟩).f_s[1]? = some (some 1) :=
  ⟨(modeA_no_validation 45 [0, 0] [1] ⟨2021, 1, 1⟩ 1 (by norm_num)
      (by norm_num)).2.1,
    (modeA_no_validation 45 [0, 0] [1] ⟨2021, 1, 1⟩ 1 (by norm_num)
      (by norm_num)).2.2.2.2⟩

/-- C10 counterexample: with T_mn = [0] and T_mx = [] the single R_s
entry of Mode A is NaN, but the f_s entry is 1 rather than NaN. -/
theorem modeA_fs_entry_not_nan :
    (solar 45 [0] [] ⟨2021, 1, 1⟩).f_s = [some 1] ∧
    (solar 45 [0] [] ⟨2021, 1, 1⟩).R_s = [none] := by
  rw [solar, solarFrom_eq]
  simp only [List.length_singleton]
  rw [show List.range 1 = [0] from rfl]
  simp only [List.map_cons, List.map_nil]
  constructor
  · rw [show (([] : List ℝ)[0 + 0]?) = none from rfl, fsAt, RsAt,
      R_sO_tmx_none, f_sO_none_left]
  · rw [show (([] : List ℝ)[0 + 0]?) = none from rfl, RsAt,
      R_sO_tmx_none]

/-- C2: the Mode B driver returns the null sentinel exactly when
T_mn.length or T_mx.length differs from the leap-year-aware day count of
the year range; in particular the range [2000, 2000] expects 366 days and
arrays of length 365 yield the sentinel. -/
theorem modeB_length_check (j : ℝ) (T_mn T_mx : List ℝ) (fy ly : ℕ) :
    (solarB j T_mn T_mx fy ly = none ↔
      ((T_mn.length : ℤ) ≠ no_days fy ly ∨
        (T_mx.length : ℤ) ≠ no_days fy ly)) ∧
    no_days 2000 2000 = 366 ∧
    solarB j (List.replicate 365 0) (List.replicate 365 0) 2000 2000 =
      none := by
  refine ⟨?_, no_days_2000, ?_⟩
  · rw [solarB]
    split
    · rename_i h; exact iff_of_true rfl h
    · rename_i h; exact iff_of_false (Option.some_ne_none _) h
  · rw [solarB,
      if_pos (Or.inl (by rw [no_days_2000, List.length_replicate]; norm_num))]

/-- For x in [-pi/2, pi/2] the absolute sine is the sine of the absolute
value. -/
theorem abs_sin_eq (x : ℝ) (h : |x| ≤ Real.pi / 2) :
    |Real.sin x| = Real.sin |x| := by
  have hpi := Real.pi_pos
  rcases le_or_lt 0 x with hx | hx
  · rw [abs_of_nonneg hx, abs_of_nonneg]
    refine Real.sin_nonneg_of_nonneg_of_le_pi hx ?_
    rw [abs_of_nonneg hx] at h
    linarith
  · rw [abs_of_neg hx, Real.sin_neg]
    refine abs_of_nonpos ?_
    refine Real.sin_nonpos_of_nonnpos_of_neg_pi_le (le_of_lt hx) ?_
    rw [abs_of_neg hx] at h
    linarith

/-- C3: for every latitude strictly between -66.5 and 66.5 degrees and
every day of year from 1 to 366, the acos argument of the sunset hour
angle lies in [-1, 1], so the sunset hour angle is a real (non-NaN)
value. -/
theorem sunset_hour_angle_domain (j : ℝ) (J : ℕ)
    (hj1 : -66.5 < j) (hj2 : j < 66.5) (_hJ1 : 1 ≤ J) (_hJ2 : J ≤ 366) :
    -1 ≤ wsArg j (d J) ∧ wsArg j (d J) ≤ 1 ∧
    (ws j (d J)).isSome = true := by
  have hpi := Real.pi_gt_d6
  have hpos := Real.pi_pos
  have ha : |rad j| < 66.5 * Real.pi / 180 := by
    rw [rad, abs_mul, abs_of_pos (by positivity : (0 : ℝ) < Real.pi / 180)]
    have hja : |j| < 66.5 := abs_lt.mpr ⟨hj1, hj2⟩
    calc Real.pi / 180 * |j| < Real.pi / 180 * 66.5 :=
          mul_lt_mul_of_pos_left hja (by positivity)
      _ = 66.5 * Real.pi / 180 := by ring
  have hd : |d J| ≤ 0.409 := by
    rw [d, abs_mul, abs_of_pos (by norm_num : (0 : ℝ) < 0.409)]
    have habs : |Real.sin (2 * Real.pi / 365 * (J : ℝ) - 1.39)| ≤ 1 :=
      abs_le.mpr ⟨Real.neg_one_le_sin _, Real.sin_le_one _⟩
    calc (0.409 : ℝ) * |Real.sin (2 * Real.pi / 365 * (J : ℝ) - 1.39)| ≤
          0.409 * 1 := mul_le_mul_of_nonneg_left habs (by norm_num)
      _ = 0.409 := by norm_num
  have hsum : |rad j| + |d J| < Real.pi / 2 := by linarith
  have haW : |rad j| < Real.pi / 2 := by linarith [abs_nonneg (d J)]
  have hdW : |d J| < Real.pi / 2 := by linarith [abs_nonneg (rad j)]
  have hca : 0 < Real.cos (rad j) :=
    Real.cos_pos_of_mem_Ioo (Set.mem_Ioo.mpr (abs_lt.mp haW))
  have hcd : 0 < Real.cos (d J) :=
    Real.cos_pos_of_mem_Ioo (Set.mem_Ioo.mpr (abs_lt.mp hdW))
  have hkey : |Real.sin (rad j) * Real.sin (d J)| ≤
      Real.cos (rad j) * Real.cos (d J) := by
    rw [abs_mul, abs_sin_eq _ (le_of_lt haW), abs_sin_eq _ (le_of_lt hdW)]
    have hc : 0 ≤ Real.cos (|rad j| + |d J|) := by
      refine Real.cos_nonneg_of_mem_Icc (Set.mem_Icc.mpr ⟨?_, ?_⟩)
      · linarith [abs_nonneg (rad j), abs_nonneg (d J)]
      · linarith
    rw [Real.cos_add, Real.cos_abs, Real.cos_abs] at hc
    linarith
  have harg : |wsArg j (d J)| ≤ 1 := by
    rw [wsArg, Real.tan_eq_sin_div_cos, Real.tan_eq_sin_div_cos]
    have heq : -(Real.sin (rad j) / Real.cos (rad j)) *
        (Real.sin (d J) / Real.cos (d J)) =
        -(Real.sin (rad j) * Real.sin (d J) /
          (Real.cos (rad j) * Real.cos (d J))) := by ring
    rw [heq, abs_neg, abs_div, abs_of_pos (mul_pos hca hcd),
      div_le_one (mul_pos hca hcd)]
    exact hkey
  have h1 := (abs_le.mp harg).1
  have h2 := (abs_le.mp harg).2
  refine ⟨h1, h2, ?_⟩
  have hcond : ¬(wsArg j (d J) < -1 ∨ 1 < wsArg j (d J)) := by
    push_neg
    exact ⟨h1, h2⟩
  rw [ws, if_neg hcond]
  rfl

theorem sunset_hour_angle_domain_witness :
    -1 ≤ wsArg 45 (d ((172 : ℕ) : ℝ)) ∧
    wsArg 45 (d ((172 : ℕ) : ℝ)) ≤ 1 ∧
    (ws 45 (d ((172 : ℕ) : ℝ))).isSome = true :=
  sunset_hour_angle_domain 45 172 (by norm_num) (by norm_num)
    (by norm_num) (by norm_num)

end Weather
